import Mathlib

/-!
Verification of the ADS records merger against its design description.

The development shallowly embeds the Python sources:

* `src/merger/global_merging_checks.py` — the two post-merge consistency
  checks `check_pub_year_consistency` and `first_author_bibcode_consistency`;
* `src/pipeline_timestamp_manager.py` — the catalog diff driver
  `get_records_status` and the ADS-side timestamp map construction;
* the priority-based field merger exercised by
  `src/tests/test_merger_regression_tests.py` (the merger module itself is
  not part of the sources, so it is modelled from the design description).

A merged record is a dictionary from MARC tags to lists of field instances;
a field instance is, for our purposes, its ordered list of
(subfield code, value) pairs.  The external error sink fed by
`manage_check_error` is modelled as a list of messages threaded through the
checks together with the record; a Python exception escaping a check is
modelled by the `Except.error` constructor carrying the exception name.
When an exception escapes, the messages flushed to the sink before the
raise are not tracked further; no theorem below inspects the sink of an
exceptional run.
-/

/-- A field instance: the ordered list of (subfield code, value) pairs of
one MARC datafield occurrence. -/
abbrev FieldInst := List (String × String)

/-- A merged record: a dictionary from MARC tag to the list of field
instances filed under that tag.  Tags are unique, as in a Python dict. -/
abbrev MergedRecord := List (String × List FieldInst)

/-- The state a consistency check acts on: the merged record it reads and
the external error sink it appends violation messages to. -/
abbrev CheckState := MergedRecord × List String

/-- Modelled from the spec: the field-container library operation
`bibrecord.field_get_subfield_values` (an external collaborator of the
repository) returns the values of all subfields of the given field that
carry the given code, in field order. -/
def field_get_subfield_values (field : FieldInst) (code : String) : List String :=
  (field.filter (fun p => p.1 == code)).map Prod.snd

/-- Modelled from the spec: the configuration constants of
`merger_settings` (not under src/): which MARC tag each logical field maps
to (`FIELD_TO_MARC`), the designated subfield codes, and the list of
publication-date type values iterated by rule A. -/
structure MergerSettings where
  systemNumberTag : String
  pubDateTag : String
  firstAuthorTag : String
  systemNumberSubfield : String
  pubDateSubfield : String
  pubDateTypeSubfield : String
  authorNameSubfield : String
  pubDateTypeVals : List String

/-- Modelled from the spec: `manage_check_error` of `merger_settings` (not
under src/) surfaces a violation message to the external error sink; the
record itself is left alone.  It is modelled as appending the message to
the sink component of the check state. -/
def manage_check_error (m : String) (st : CheckState) : CheckState :=
  (st.1, st.2 ++ [m])

/-- The violation message emitted by `check_pub_year_consistency` when the
leading four characters of a date disagree with those of the bibcode. -/
def yearMismatchMsg (dt sysnum : String) : String :=
  "Year of \"" ++ dt ++ "\" not consistent with the main bibcode \"" ++ sysnum ++ "\"!"

/-- The violation message emitted by `check_pub_year_consistency` when no
date type yields a usable date. -/
def noDatesMsg : String :=
  "No dates available for this record!"

/-- The violation message emitted by `first_author_bibcode_consistency` on
an author/bibcode mismatch. -/
def authorMismatchMsg (author sysnum : String) : String :=
  "First Author \"" ++ author ++ "\" not consistent with the main bibcode \"" ++ sysnum ++ "\"!"

/-- The inner loop of `check_pub_year_consistency` (lines 51-55 of
`global_merging_checks.py`): scan the publication-date fields in record
order; on the first field whose type subfield (first value) equals the
requested date type, return that field's date value (first value of the
date subfield); if no field matches, the Python variable `pubdate` keeps
its initial value, the empty string.  Accessing `[0]` of an empty value
list raises an IndexError. -/
def findPubdate (s : MergerSettings) (dt : String) : List FieldInst → Except String String
  | [] => .ok ""
  | f :: rest =>
    match (field_get_subfield_values f s.pubDateTypeSubfield).head? with
    | none => .error "IndexError"
    | some tv =>
      if tv == dt then
        match (field_get_subfield_values f s.pubDateSubfield).head? with
        | none => .error "IndexError"
        | some d => .ok d
      else findPubdate s dt rest

/-- The outer loop of `check_pub_year_consistency` (lines 49-62): for each
configured date type, extract its date via the inner loop; a non-empty
date counts towards `num_dates_checked` and is compared by its leading
four characters against the bibcode, a mismatch being reported to the
sink; an empty date is skipped. -/
def pubYearLoop (s : MergerSettings) (pds : List FieldInst) (sysnum : String) :
    List String → CheckState → Nat → Except String (CheckState × Nat)
  | [], st, n => .ok (st, n)
  | dt :: rest, st, n =>
    match findPubdate s dt pds with
    | .error e => .error e
    | .ok pubdate =>
      if pubdate.length != 0 then
        if pubdate.take 4 != sysnum.take 4 then
          pubYearLoop s pds sysnum rest (manage_check_error (yearMismatchMsg dt sysnum) st) (n + 1)
        else
          pubYearLoop s pds sysnum rest st (n + 1)
      else
        pubYearLoop s pds sysnum rest st n

/-- `check_pub_year_consistency` of `global_merging_checks.py`: rule A of
the consistency checker.  Missing tags and a duplicated system number are
reported to the sink with an early normal return; the system-number value
is the first value of the designated subfield of the sole system-number
field (an IndexError if absent); then each configured date type is checked
by `pubYearLoop`, and if none yielded a usable date a final message is
reported. -/
def check_pub_year_consistency (s : MergerSettings) (st : CheckState) :
    Except String CheckState :=
  match List.lookup s.systemNumberTag st.1 with
  | none => .ok (manage_check_error "No System Number field!" st)
  | some system_number_fields =>
    match List.lookup s.pubDateTag st.1 with
    | none => .ok (manage_check_error "No Publication Date field!" st)
    | some pub_dates_fields =>
      if system_number_fields.length > 1 then
        .ok (manage_check_error "There are more than one System Numbers!" st)
      else
        match system_number_fields.head? with
        | none => .error "IndexError"
        | some f0 =>
          match (field_get_subfield_values f0 s.systemNumberSubfield).head? with
          | none => .error "IndexError"
          | some system_number =>
            match pubYearLoop s pub_dates_fields system_number s.pubDateTypeVals st 0 with
            | .error e => .error e
            | .ok (st2, n) =>
              if n == 0 then .ok (manage_check_error noDatesMsg st2) else .ok st2

/-- `first_author_bibcode_consistency` of `global_merging_checks.py`:
rule B of the consistency checker.  Missing tags and duplicated fields are
reported with an early normal return; the first character of the first
author name (Python `first_author[0]`, an IndexError on the empty string)
is compared against the last character of the bibcode (Python
`system_number[-1]`, likewise an IndexError on the empty string). -/
def first_author_bibcode_consistency (s : MergerSettings) (st : CheckState) :
    Except String CheckState :=
  match List.lookup s.systemNumberTag st.1 with
  | none => .ok (manage_check_error "No System Number field!" st)
  | some system_number_fields =>
    match List.lookup s.firstAuthorTag st.1 with
    | none => .ok (manage_check_error "No First Author field!" st)
    | some first_author_fields =>
      if system_number_fields.length > 1 then
        .ok (manage_check_error "There are more than one System Numbers!" st)
      else if first_author_fields.length > 1 then
        .ok (manage_check_error "There are more than one First Author!" st)
      else
        match system_number_fields.head? with
        | none => .error "IndexError"
        | some f0 =>
          match (field_get_subfield_values f0 s.systemNumberSubfield).head? with
          | none => .error "IndexError"
          | some system_number =>
            match first_author_fields.head? with
            | none => .error "IndexError"
            | some g0 =>
              match (field_get_subfield_values g0 s.authorNameSubfield).head? with
              | none => .error "IndexError"
              | some first_author =>
                match first_author.data.head? with
                | none => .error "IndexError"
                | some c0 =>
                  match system_number.data.getLast? with
                  | none => .error "IndexError"
                  | some cl =>
                    if c0 != cl then
                      .ok (manage_check_error (authorMismatchMsg first_author system_number) st)
                    else
                      .ok st

/-- The date value `check_pub_year_consistency` would use for a given date
type, when the inner loop terminates without an exception (the empty
string when no field matches). -/
def findPubdateD (s : MergerSettings) (dt : String) (pds : List FieldInst) : String :=
  match findPubdate s dt pds with
  | .ok d => d
  | .error _ => ""

/-- Specification of the year-mismatch messages rule A flushes to the
sink: one message per configured date type whose extracted date is
non-empty and whose leading four characters differ from those of the
bibcode, in configuration order. -/
def yearChecksSpec (s : MergerSettings) (pds : List FieldInst) (sysnum : String)
    (types : List String) : List String :=
  types.filterMap (fun dt =>
    if (findPubdateD s dt pds != "") && ((findPubdateD s dt pds).take 4 != sysnum.take 4) then
      some (yearMismatchMsg dt sysnum)
    else
      none)

/-- The number of configured date types that yield a non-empty date:
the final value of the Python counter `num_dates_checked`. -/
def usableDates (s : MergerSettings) (pds : List FieldInst) (types : List String) : Nat :=
  types.countP (fun dt => findPubdateD s dt pds != "")

/-- Modelled from the spec: a concrete example configuration in the shape
of §6 of the design (the actual values live in `merger_settings`, not
under src/); used to instantiate witnesses and counterexamples. -/
def exampleSettings : MergerSettings :=
  ⟨"970", "260", "100", "a", "c", "t", "a", ["print", "electronic", "preprint"]⟩

/-!
Embedding of `src/pipeline_timestamp_manager.py`.

The module reads its two key-to-timestamp mappings from the ADS timestamp
files and from the Invenio SQL tables; that I/O is external, so the
functions below are parameterized by the mappings already read.  A Python
dict is modelled as an association list with unique keys, built by
`dictInsert` which, like dict assignment, replaces the value in place when
the key is present and appends otherwise.
-/

/-- The keys of a Python dict modelled as an association list. -/
def mapKeys (m : List (String × String)) : List String :=
  m.map Prod.fst

/-- Python dict assignment `d[k] = v`: replace in place when the key is
present, append otherwise. -/
def dictInsert : List (String × String) → String → String → List (String × String)
  | [], k, v => [(k, v)]
  | p :: ps, k, v => if p.1 == k then (k, v) :: ps else p :: dictInsert ps k v

/-- Python `d.update(d2)`: assign every entry of `d2` into `d`, in order. -/
def dictUpdate (d d2 : List (String × String)) : List (String × String) :=
  d2.foldl (fun acc p => dictInsert acc p.1 p.2) d

/-- Python `del d[k]` wrapped in try/except: drop the entry with the given
key when present, do nothing otherwise. -/
def dictDelete (d : List (String × String)) (k : String) : List (String × String) :=
  d.filter (fun p => p.1 != k)

/-- `TIMESTAMP_FILES_HIERARCHY` of `pipeline_timestamp_manager.py` (lines
36-41): the timestamp files in increasing order of importance, the
astronomy file last.  The constants `BIBCODES_GEN` and so on are file
paths defined in `pipeline_settings` (not under src/); they are modelled
by their names. -/
def TIMESTAMP_FILES_HIERARCHY : List String :=
  ["BIBCODES_GEN", "BIBCODES_PRE", "BIBCODES_PHY", "BIBCODES_AST"]

/-- `_get_ads_timestamps` of `pipeline_timestamp_manager.py`:
successively update an initially empty dict with each tier file of
`TIMESTAMP_FILES_HIERARCHY` in order, then delete every bibcode listed in
the published-eprints file.  `readFile` stands for `_read_timestamp_file`
applied to a file name (file contents are external input), `published`
for the bibcode list read from `ads.pub2arx`. -/
def _get_ads_timestamps (readFile : String → List (String × String))
    (published : List String) : List (String × String) :=
  published.foldl dictDelete
    (TIMESTAMP_FILES_HIERARCHY.foldl (fun acc fn => dictUpdate acc (readFile fn)) [])

/-- The ADS-side value a bibcode ends up with before the published-eprint
removal: the entry of the tier listed latest in the hierarchy that
contains the bibcode. -/
def lookupTiers (tiers : List (List (String × String))) (b : String) : Option String :=
  tiers.reverse.findSome? (fun t => List.lookup b t)

/-- `records_added` of `get_records_status` (line 65): the ADS bibcodes
that are not Invenio bibcodes, as a set difference. -/
def records_added (ads inv : List (String × String)) : List String :=
  (mapKeys ads).filter (fun b => decide (b ∉ mapKeys inv))

/-- `records_deleted` of `get_records_status` (line 68): the Invenio
bibcodes that are not ADS bibcodes. -/
def records_deleted (ads inv : List (String × String)) : List String :=
  (mapKeys inv).filter (fun b => decide (b ∉ mapKeys ads))

/-- `records_to_check` of `get_records_status` (line 71): the Invenio
bibcodes minus the deleted ones. -/
def records_to_check (ads inv : List (String × String)) : List String :=
  (mapKeys inv).filter (fun b => decide (b ∉ records_deleted ads inv))

/-- The loop of `get_records_status` (lines 75-82): among the records to
check, keep those whose two timestamps differ. -/
def records_modified (ads inv : List (String × String)) : List String :=
  (records_to_check ads inv).filter
    (fun b => decide (List.lookup b inv ≠ List.lookup b ads))

/-- `get_records_status` of `pipeline_timestamp_manager.py`,
parameterized by the two key-to-timestamp mappings it reads (the ADS side
via `_get_ads_timestamps`, the Invenio side via `_get_invenio_timestamps`,
both external input here): the added, modified and deleted bibcodes. -/
def get_records_status (ads inv : List (String × String)) :
    List String × List String × List String :=
  (records_added ads inv, records_modified ads inv, records_deleted ads inv)

/-!
Model of the priority-based field merger.  The merger module itself is not
among the sources, only its regression tests are, so the resolver is
modelled from §4.1 of the design description.
-/

/-- Modelled from the spec: the value of a subfield of a field instance,
the empty string when the subfield is missing (§4.1: missing subfield
gives the empty string in identity keys). -/
def subfield_value (f : FieldInst) (code : String) : String :=
  ((field_get_subfield_values f code).head?).getD ""

/-- Modelled from the spec: the identity key of a field instance under a
configured list of identity-key subfields (§4.1): the tuple of values at
those subfields, missing subfields contributing the empty string. -/
def identityKey (ks : List String) (f : FieldInst) : List String :=
  ks.map (subfield_value f)

/-- Modelled from the spec: add one instance to the running list of field
groups, preserving first-seen key order (§4.1): append it to the group
with an equal key when one exists, open a new group at the end otherwise. -/
def addToGroups (ks : List String) (gs : List (List String × List FieldInst))
    (f : FieldInst) : List (List String × List FieldInst) :=
  if gs.any (fun g => g.1 == identityKey ks f) then
    gs.map (fun g => if g.1 == identityKey ks f then (g.1, g.2 ++ [f]) else g)
  else
    gs ++ [(identityKey ks f, [f])]

/-- Modelled from the spec: group the instances of one tag across all
source records into field groups by identity key, in first-seen key
order (§4.1). -/
def groupInstances (ks : List String) (instances : List FieldInst) :
    List (List String × List FieldInst) :=
  instances.foldl (addToGroups ks) []

/-- Modelled from the spec: the priority rank of a field instance (§4.3,
§6): the rank of its origin code, carried by the designated origin
subfield `7`; lower rank means higher priority. -/
def fieldRank (priority : String → Nat) (f : FieldInst) : Nat :=
  priority (subfield_value f "7")

/-- Modelled from the spec: stable insertion by ascending rank (§4.1:
sort members by descending priority, ties keeping original order). -/
def insertByRank (rank : FieldInst → Nat) (f : FieldInst) :
    List FieldInst → List FieldInst
  | [] => [f]
  | g :: gs => if rank f < rank g then f :: g :: gs else g :: insertByRank rank f gs

/-- Modelled from the spec: stable sort of a field group by ascending
rank, the winner first. -/
def sortByRank (rank : FieldInst → Nat) (l : List FieldInst) : List FieldInst :=
  l.foldl (fun acc f => insertByRank rank f acc) []

/-- Modelled from the spec: enrich the merged instance with one donor
(§4.1): walk the donor subfields in order and append each whose code is
not yet present in the merged instance. -/
def enrichField (base donor : FieldInst) : FieldInst :=
  donor.foldl (fun acc p => if acc.any (fun q => q.1 == p.1) then acc else acc ++ [p]) base

/-- Modelled from the spec: merge one field group (§4.1): the
highest-priority member is the winner, copied verbatim; the remaining
members donate their missing subfields in priority order. -/
def mergeGroup (rank : FieldInst → Nat) (members : List FieldInst) : Option FieldInst :=
  match sortByRank rank members with
  | [] => none
  | w :: donors => some (donors.foldl enrichField w)

/-- Modelled from the spec: `resolve` of §4.1 for a repeatable tag: group
the concatenated instances by identity key and merge each group, keeping
first-seen key order. -/
def resolve (priority : String → Nat) (ks : List String)
    (instances : List FieldInst) : List FieldInst :=
  (groupInstances ks instances).filterMap (fun g => mergeGroup (fieldRank priority) g.2)

/-- Modelled from the spec: the priority ranking used by the author
regression test, ranking origin A&A above origin ARXIV (§8 scenario). -/
def scenarioPriority : String → Nat :=
  fun o => if o == "A&A" then 0 else if o == "ARXIV" then 1 else 2

/-- The author field of record 1 in
`TestAuthorMerger.test_02_merge_two_records_additional_subfield`. -/
def rec1author : FieldInst :=
  [("a", "Di Milia, Giovanni"), ("b", "Di Milia, G"), ("7", "A&A")]

/-- The author field of record 2 in
`TestAuthorMerger.test_02_merge_two_records_additional_subfield`. -/
def rec2author : FieldInst :=
  [("a", "Di Milia, Giancarlo"), ("b", "Di Milia, G"), ("u", "Center for astrophysics"), ("7", "ARXIV")]

/-!
Helper lemmas.
-/

/-- A string has length zero exactly when it is the empty string. -/
theorem string_length_eq_zero_iff (d : String) : d.length = 0 ↔ d = "" := by
  obtain ⟨l⟩ := d
  simp [String.length, String.ext_iff, List.length_eq_zero]

/-- The Boolean guard used by the check (Python `len(pubdate) != 0`)
agrees with non-emptiness of the string. -/
theorem length_bne_zero_eq (d : String) : (d.length != 0) = (d != "") := by
  by_cases h : d = ""
  · subst h; rfl
  · have h1 : d.length ≠ 0 := fun hl => h ((string_length_eq_zero_iff d).mp hl)
    have hl : (d.length != 0) = true := bne_iff_ne.mpr h1
    have hr : (d != "") = true := bne_iff_ne.mpr h
    rw [hl, hr]

/-- A year-mismatch message is never the no-usable-date message: the
former starts with the letter Y, the latter with the letter N. -/
theorem yearMismatchMsg_ne_noDatesMsg (dt sysnum : String) :
    yearMismatchMsg dt sysnum ≠ noDatesMsg := by
  intro h
  have h1 : (yearMismatchMsg dt sysnum).data.head? = noDatesMsg.data.head? := by rw [h]
  rw [yearMismatchMsg, noDatesMsg] at h1
  rw [String.data_append, String.data_append, String.data_append, String.data_append] at h1
  have h2 : ("Year of \"" : String).data = 'Y' :: ("ear of \"" : String).data := rfl
  have h3 : ("No dates available for this record!" : String).data =
      'N' :: ("o dates available for this record!" : String).data := rfl
  rw [h2, h3] at h1
  simp only [List.cons_append, List.head?_cons, Option.some.injEq] at h1
  exact absurd h1 (by decide)

/-- The inner loop returns without an exception whenever every
publication-date field carries at least one type-subfield value and at
least one date-subfield value. -/
theorem findPubdate_isOk (s : MergerSettings) (dt : String) :
    ∀ pds : List FieldInst,
      (∀ f ∈ pds, field_get_subfield_values f s.pubDateTypeSubfield ≠ [] ∧
        field_get_subfield_values f s.pubDateSubfield ≠ []) →
      ∃ d, findPubdate s dt pds = .ok d := by
  intro pds
  induction pds with
  | nil => intro _; exact ⟨"", rfl⟩
  | cons f rest ih =>
    intro h
    obtain ⟨h1, h2⟩ := h f (List.mem_cons_self f rest)
    cases htv : (field_get_subfield_values f s.pubDateTypeSubfield).head? with
    | none => exact absurd (List.head?_eq_none_iff.mp htv) h1
    | some tv =>
      by_cases hdt : tv == dt
      · cases hdv : (field_get_subfield_values f s.pubDateSubfield).head? with
        | none => exact absurd (List.head?_eq_none_iff.mp hdv) h2
        | some d => exact ⟨d, by simp [findPubdate, htv, hdt, hdv]⟩
      · obtain ⟨d, hd⟩ := ih (fun g hg => h g (List.mem_cons_of_mem f hg))
        exact ⟨d, by simp [findPubdate, htv, hdt, hd]⟩

/-- When the inner loop returns a value, `findPubdateD` is that value. -/
theorem findPubdateD_eq {s : MergerSettings} {dt : String} {pds : List FieldInst}
    {d : String} (h : findPubdate s dt pds = .ok d) : findPubdateD s dt pds = d := by
  simp [findPubdateD, h]

/-- Under the same well-formedness assumption, the inner loop returns
exactly `findPubdateD`. -/
theorem findPubdate_eq_okD (s : MergerSettings) (dt : String) (pds : List FieldInst)
    (h : ∀ f ∈ pds, field_get_subfield_values f s.pubDateTypeSubfield ≠ [] ∧
      field_get_subfield_values f s.pubDateSubfield ≠ []) :
    findPubdate s dt pds = .ok (findPubdateD s dt pds) := by
  obtain ⟨d, hd⟩ := findPubdate_isOk s dt pds h
  rw [hd, findPubdateD_eq hd]

/-- Characterization of the rule-A date loop under well-formed
publication-date fields: it returns normally, flushes exactly the
year-mismatch messages of `yearChecksSpec` in configuration order, and
counts the usable dates. -/
theorem pubYearLoop_spec (s : MergerSettings) (pds : List FieldInst) (sysnum : String)
    (hflds : ∀ f ∈ pds, field_get_subfield_values f s.pubDateTypeSubfield ≠ [] ∧
      field_get_subfield_values f s.pubDateSubfield ≠ []) :
    ∀ (types : List String) (st : CheckState) (n : Nat),
      pubYearLoop s pds sysnum types st n =
        .ok ((st.1, st.2 ++ yearChecksSpec s pds sysnum types),
          n + usableDates s pds types) := by
  intro types
  induction types with
  | nil =>
    intro st n
    simp [pubYearLoop, yearChecksSpec, usableDates]
  | cons dt rest ih =>
    intro st n
    have hok := findPubdate_eq_okD s dt pds hflds
    simp only [pubYearLoop, hok, length_bne_zero_eq]
    by_cases hd : findPubdateD s dt pds = ""
    · have hguard : (findPubdateD s dt pds != "") = false := by simp [hd]
      have e1 : yearChecksSpec s pds sysnum (dt :: rest) = yearChecksSpec s pds sysnum rest := by
        simp [yearChecksSpec, List.filterMap_cons, hd]
      have e2 : usableDates s pds (dt :: rest) = usableDates s pds rest := by
        simp [usableDates, List.countP_cons, hd]
      rw [hguard]
      simp only [Bool.false_eq_true, if_false]
      rw [ih st n, e1, e2]
    · have hguard : (findPubdateD s dt pds != "") = true := bne_iff_ne.mpr hd
      have e2 : usableDates s pds (dt :: rest) = usableDates s pds rest + 1 := by
        simp [usableDates, List.countP_cons, bne_iff_ne, hd]
      rw [hguard]
      simp only [if_true]
      by_cases hc : (findPubdateD s dt pds).take 4 = sysnum.take 4
      · have hg2 : ((findPubdateD s dt pds).take 4 != sysnum.take 4) = false := by simp [hc]
        have e1 : yearChecksSpec s pds sysnum (dt :: rest) = yearChecksSpec s pds sysnum rest := by
          simp [yearChecksSpec, List.filterMap_cons, hc]
        have e3 : n + 1 + usableDates s pds rest = n + (usableDates s pds rest + 1) := by omega
        rw [hg2]
        simp only [Bool.false_eq_true, if_false]
        rw [ih st (n + 1), e1, e2, e3]
      · have hg2 : ((findPubdateD s dt pds).take 4 != sysnum.take 4) = true := bne_iff_ne.mpr hc
        have e1 : yearChecksSpec s pds sysnum (dt :: rest) =
            yearMismatchMsg dt sysnum :: yearChecksSpec s pds sysnum rest := by
          simp [yearChecksSpec, List.filterMap_cons, hd, hc]
        have e3 : n + 1 + usableDates s pds rest = n + (usableDates s pds rest + 1) := by omega
        rw [hg2]
        simp only [if_true]
        rw [ih (manage_check_error (yearMismatchMsg dt sysnum) st) (n + 1), e1, e2, e3]
        simp [manage_check_error, List.append_assoc]

/-- Full characterization of rule A on a record with exactly one
system-number field instance and the publication-date tag present, the
fields being well-formed enough for the check to run to completion: the
messages flushed to the sink are exactly `yearChecksSpec`, followed by
the no-usable-date message when no date type yielded a non-empty date. -/
theorem check_pub_year_spec
    (s : MergerSettings) (r : MergedRecord) (sink : List String)
    (f0 : FieldInst) (pds : List FieldInst) (sysnum : String)
    (hsn : List.lookup s.systemNumberTag r = some [f0])
    (hpd : List.lookup s.pubDateTag r = some pds)
    (hsv : (field_get_subfield_values f0 s.systemNumberSubfield).head? = some sysnum)
    (hflds : ∀ f ∈ pds, field_get_subfield_values f s.pubDateTypeSubfield ≠ [] ∧
      field_get_subfield_values f s.pubDateSubfield ≠ []) :
    check_pub_year_consistency s (r, sink) =
      .ok (r, (sink ++ yearChecksSpec s pds sysnum s.pubDateTypeVals) ++
        (if usableDates s pds s.pubDateTypeVals = 0 then [noDatesMsg] else [])) := by
  have hloop := pubYearLoop_spec s pds sysnum hflds s.pubDateTypeVals (r, sink) 0
  by_cases hu : usableDates s pds s.pubDateTypeVals = 0
  · simp [check_pub_year_consistency, hsn, hpd, hsv, hloop, hu, manage_check_error]
  · simp [check_pub_year_consistency, hsn, hpd, hsv, hloop, hu, manage_check_error]

/-- Claim C7: for a merged record with exactly one system-number field
instance and the publication-date tag present (fields well-formed enough
for the check to run to completion), rule A flushes exactly one
no-usable-date violation when no configured date type yields a non-empty
date, and no such violation when at least one does. -/
theorem c7_no_usable_date
    (s : MergerSettings) (r : MergedRecord) (sink : List String)
    (f0 : FieldInst) (pds : List FieldInst) (sysnum : String)
    (hsn : List.lookup s.systemNumberTag r = some [f0])
    (hpd : List.lookup s.pubDateTag r = some pds)
    (hsv : (field_get_subfield_values f0 s.systemNumberSubfield).head? = some sysnum)
    (hflds : ∀ f ∈ pds, field_get_subfield_values f s.pubDateTypeSubfield ≠ [] ∧
      field_get_subfield_values f s.pubDateSubfield ≠ []) :
    (usableDates s pds s.pubDateTypeVals = 0 →
      check_pub_year_consistency s (r, sink) = .ok (r, sink ++ [noDatesMsg]))
    ∧ (usableDates s pds s.pubDateTypeVals ≠ 0 →
      ∃ out, check_pub_year_consistency s (r, sink) = .ok (r, sink ++ out) ∧
        noDatesMsg ∉ out) := by
  have hloop := pubYearLoop_spec s pds sysnum hflds s.pubDateTypeVals (r, sink) 0
  constructor
  · intro hu
    have h0 : ∀ dt ∈ s.pubDateTypeVals, (findPubdateD s dt pds != "") = false := by
      intro dt hdt
      have hx := List.countP_eq_zero.mp hu dt hdt
      simpa using hx
    have hspec : yearChecksSpec s pds sysnum s.pubDateTypeVals = [] := by
      rw [yearChecksSpec, List.filterMap_eq_nil_iff]
      intro dt hdt
      rw [h0 dt hdt]
      simp
    simp [check_pub_year_consistency, hsn, hpd, hsv, hloop, hu, hspec, manage_check_error]
  · intro hu
    refine ⟨yearChecksSpec s pds sysnum s.pubDateTypeVals, ?_, ?_⟩
    · simp [check_pub_year_consistency, hsn, hpd, hsv, hloop, hu]
    · intro hmem
      rw [yearChecksSpec] at hmem
      obtain ⟨dt, hdt, hsome⟩ := List.mem_filterMap.mp hmem
      split at hsome
      · exact yearMismatchMsg_ne_noDatesMsg dt sysnum (Option.some.injEq _ _ ▸ hsome)
      · exact Option.noConfusion hsome

/-- Full characterization of rule B on a record with exactly one
system-number field instance and exactly one first-author field
instance, each carrying its designated subfield with a non-empty value:
a mismatch violation is flushed exactly when the first character of the
author name differs from the last character of the system number. -/
theorem first_author_spec
    (s : MergerSettings) (r : MergedRecord) (sink : List String)
    (f0 g0 : FieldInst) (sysnum author : String)
    (hsn : List.lookup s.systemNumberTag r = some [f0])
    (hfa : List.lookup s.firstAuthorTag r = some [g0])
    (hsv : (field_get_subfield_values f0 s.systemNumberSubfield).head? = some sysnum)
    (hav : (field_get_subfield_values g0 s.authorNameSubfield).head? = some author)
    (ha : author ≠ "") (hs : sysnum ≠ "") :
    first_author_bibcode_consistency s (r, sink) =
      .ok (r, sink ++ (if author.data.head? = sysnum.data.getLast? then []
        else [authorMismatchMsg author sysnum])) := by
  have hda : author.data ≠ [] := by
    intro h
    exact ha (String.ext_iff.mpr h)
  have hds : sysnum.data ≠ [] := by
    intro h
    exact hs (String.ext_iff.mpr h)
  cases hc0 : author.data.head? with
  | none => exact absurd (List.head?_eq_none_iff.mp hc0) hda
  | some c0 =>
    cases hcl : sysnum.data.getLast? with
    | none => exact absurd (List.getLast?_eq_none_iff.mp hcl) hds
    | some cl =>
      by_cases heq : c0 = cl
      · simp [first_author_bibcode_consistency, hsn, hfa, hsv, hav, hc0, hcl, heq,
          manage_check_error]
      · simp [first_author_bibcode_consistency, hsn, hfa, hsv, hav, hc0, hcl, heq,
          manage_check_error]

/-- Claim C1: for every merged record with exactly one system-number
field instance and a publication-date tag present (fields well-formed
enough for the check to run to completion), `check_pub_year_consistency`
reports, for each configured publication-date-type value whose first
matching date field has a non-empty date value, a year-mismatch
violation exactly when the leading four characters of that date value
differ from those of the system-number value (`yearChecksSpec` contains
the message of a date type exactly under that condition), and date types
with no matching field or an empty value contribute nothing. -/
theorem c1_pub_year_consistency_characterization
    (s : MergerSettings) (r : MergedRecord) (sink : List String)
    (f0 : FieldInst) (pds : List FieldInst) (sysnum : String)
    (hsn : List.lookup s.systemNumberTag r = some [f0])
    (hpd : List.lookup s.pubDateTag r = some pds)
    (hsv : (field_get_subfield_values f0 s.systemNumberSubfield).head? = some sysnum)
    (hflds : ∀ f ∈ pds, field_get_subfield_values f s.pubDateTypeSubfield ≠ [] ∧
      field_get_subfield_values f s.pubDateSubfield ≠ []) :
    check_pub_year_consistency s (r, sink) =
      .ok (r, (sink ++ yearChecksSpec s pds sysnum s.pubDateTypeVals) ++
        (if usableDates s pds s.pubDateTypeVals = 0 then [noDatesMsg] else [])) :=
  check_pub_year_spec s r sink f0 pds sysnum hsn hpd hsv hflds

/-- Claim C2: for every merged record with exactly one system-number
field instance and exactly one first-author field instance, each
carrying its designated subfield with a non-empty value,
`first_author_bibcode_consistency` reports an author/bibcode mismatch
violation exactly when the first character of the author name differs
from the last character of the system-number value, and no violation
when they agree. -/
theorem c2_first_author_bibcode
    (s : MergerSettings) (r : MergedRecord) (sink : List String)
    (f0 g0 : FieldInst) (sysnum author : String)
    (hsn : List.lookup s.systemNumberTag r = some [f0])
    (hfa : List.lookup s.firstAuthorTag r = some [g0])
    (hsv : (field_get_subfield_values f0 s.systemNumberSubfield).head? = some sysnum)
    (hav : (field_get_subfield_values g0 s.authorNameSubfield).head? = some author)
    (ha : author ≠ "") (hs : sysnum ≠ "") :
    first_author_bibcode_consistency s (r, sink) =
      .ok (r, sink ++ (if author.data.head? = sysnum.data.getLast? then []
        else [authorMismatchMsg author sysnum])) :=
  first_author_spec s r sink f0 g0 sysnum author hsn hfa hsv hav ha hs

/-- A merged record with two system-number field instances and no
publication-date tag. -/
def twoSysNoDateRecord : MergedRecord :=
  [("970", [[("a", "2020ApJ...1A")], [("a", "2020ApJ...1B")]])]

/-- Claim C3, counterexample: on a record whose system-number tag holds
two field instances but whose publication-date tag is absent, rule A does
not report the duplicate-identifier violation: the publication-date
lookup happens first (lines 38-42 before line 44 of
`global_merging_checks.py`), so only the missing-publication-date
violation is flushed. -/
theorem c3_counterexample :
    ∃ out, check_pub_year_consistency exampleSettings (twoSysNoDateRecord, []) =
      .ok (twoSysNoDateRecord, out) ∧
      "There are more than one System Numbers!" ∉ out := by
  refine ⟨["No Publication Date field!"], rfl, ?_⟩
  decide

/-- Claim C3, amended: on a merged record whose system-number tag holds
more than one field instance, rule A reports the duplicate-identifier
violation and performs no year comparison when the publication-date tag
is present; when that tag is absent the check instead stops earlier,
reporting only the missing-publication-date violation. -/
theorem c3_amended
    (s : MergerSettings) (r : MergedRecord) (sink : List String)
    (snf : List FieldInst)
    (hsn : List.lookup s.systemNumberTag r = some snf)
    (hlen : snf.length > 1) :
    (∀ pds, List.lookup s.pubDateTag r = some pds →
      check_pub_year_consistency s (r, sink) =
        .ok (r, sink ++ ["There are more than one System Numbers!"]))
    ∧ (List.lookup s.pubDateTag r = none →
      check_pub_year_consistency s (r, sink) =
        .ok (r, sink ++ ["No Publication Date field!"])) := by
  constructor
  · intro pds hpd
    simp [check_pub_year_consistency, hsn, hpd, hlen, manage_check_error]
  · intro hpd
    simp [check_pub_year_consistency, hsn, hpd, manage_check_error]

/-- A merged record whose sole system-number field instance lacks the
designated subfield `a`. -/
def missingSubfieldRecord : MergedRecord :=
  [("970", [[("b", "x")]]), ("260", [[("t", "print"), ("c", "2020-01-01")]])]

/-- Claim C4, counterexample: on a record whose sole system-number field
instance lacks the designated subfield, `check_pub_year_consistency`
raises an IndexError (Python `[0]` on the empty value list at line 47 of
`global_merging_checks.py`) instead of reporting through the sink. -/
theorem c4_counterexample :
    check_pub_year_consistency exampleSettings (missingSubfieldRecord, []) =
      .error "IndexError" := rfl

/-- Claim C4, amended: both checks return normally — every rule failure
being reported through the sink — provided each present system-number or
first-author tag holds a non-empty list of field instances whose
designated subfields carry a non-empty first value, and every present
publication-date field carries its type and date subfields; a record
breaking these assumptions can make the checks raise an IndexError, as
the counterexample shows. -/
theorem c4_amended
    (s : MergerSettings) (r : MergedRecord) (sink : List String)
    (hsn : ∀ flds, List.lookup s.systemNumberTag r = some flds →
      flds ≠ [] ∧ ∀ f ∈ flds, ∃ v,
        (field_get_subfield_values f s.systemNumberSubfield).head? = some v ∧ v ≠ "")
    (hpd : ∀ flds, List.lookup s.pubDateTag r = some flds →
      ∀ f ∈ flds, field_get_subfield_values f s.pubDateTypeSubfield ≠ [] ∧
        field_get_subfield_values f s.pubDateSubfield ≠ [])
    (hfa : ∀ flds, List.lookup s.firstAuthorTag r = some flds →
      flds ≠ [] ∧ ∀ f ∈ flds, ∃ v,
        (field_get_subfield_values f s.authorNameSubfield).head? = some v ∧ v ≠ "") :
    (∃ st1, check_pub_year_consistency s (r, sink) = .ok st1)
    ∧ (∃ st2, first_author_bibcode_consistency s (r, sink) = .ok st2) := by
  constructor
  · cases e1 : List.lookup s.systemNumberTag r with
    | none =>
      exact ⟨manage_check_error "No System Number field!" (r, sink),
        by simp [check_pub_year_consistency, e1]⟩
    | some snf =>
      cases e2 : List.lookup s.pubDateTag r with
      | none =>
        exact ⟨manage_check_error "No Publication Date field!" (r, sink),
          by simp [check_pub_year_consistency, e1, e2]⟩
      | some pds =>
        by_cases hl : snf.length > 1
        · exact ⟨manage_check_error "There are more than one System Numbers!" (r, sink),
            by simp [check_pub_year_consistency, e1, e2, hl]⟩
        · obtain ⟨hne, hv⟩ := hsn snf e1
          obtain ⟨f0, rest, rfl⟩ := List.exists_cons_of_ne_nil hne
          have hrest : rest = [] := by
            have hle : (f0 :: rest).length ≤ 1 := Nat.not_lt.mp hl
            simpa using hle
          subst hrest
          obtain ⟨v, hv0, hvne⟩ := hv f0 (by simp)
          exact ⟨_, check_pub_year_spec s r sink f0 pds v e1 e2 hv0 (hpd pds e2)⟩
  · cases e1 : List.lookup s.systemNumberTag r with
    | none =>
      exact ⟨manage_check_error "No System Number field!" (r, sink),
        by simp [first_author_bibcode_consistency, e1]⟩
    | some snf =>
      cases e3 : List.lookup s.firstAuthorTag r with
      | none =>
        exact ⟨manage_check_error "No First Author field!" (r, sink),
          by simp [first_author_bibcode_consistency, e1, e3]⟩
      | some faf =>
        by_cases hl1 : snf.length > 1
        · exact ⟨manage_check_error "There are more than one System Numbers!" (r, sink),
            by simp [first_author_bibcode_consistency, e1, e3, hl1]⟩
        · by_cases hl2 : faf.length > 1
          · exact ⟨manage_check_error "There are more than one First Author!" (r, sink),
              by simp [first_author_bibcode_consistency, e1, e3, hl1, hl2]⟩
          · obtain ⟨hne1, hv1⟩ := hsn snf e1
            obtain ⟨hne2, hv2⟩ := hfa faf e3
            obtain ⟨f0, rest1, rfl⟩ := List.exists_cons_of_ne_nil hne1
            have hrest1 : rest1 = [] := by
              have hle : (f0 :: rest1).length ≤ 1 := Nat.not_lt.mp hl1
              simpa using hle
            subst hrest1
            obtain ⟨g0, rest2, rfl⟩ := List.exists_cons_of_ne_nil hne2
            have hrest2 : rest2 = [] := by
              have hle : (g0 :: rest2).length ≤ 1 := Nat.not_lt.mp hl2
              simpa using hle
            subst hrest2
            obtain ⟨v, hv0, hvne⟩ := hv1 f0 (by simp)
            obtain ⟨w, hw0, hwne⟩ := hv2 g0 (by simp)
            exact ⟨_, first_author_spec s r sink f0 g0 v w e1 e3 hv0 hw0 hwne hvne⟩

/-- The rule-A date loop never changes the record component of the check
state: only the sink grows. -/
theorem pubYearLoop_fst (s : MergerSettings) (pds : List FieldInst) (sysnum : String) :
    ∀ (types : List String) (st : CheckState) (n : Nat) (st2 : CheckState) (m : Nat),
      pubYearLoop s pds sysnum types st n = .ok (st2, m) → st2.1 = st.1 := by
  intro types
  induction types with
  | nil =>
    intro st n st2 m h
    simp only [pubYearLoop] at h
    cases h
    rfl
  | cons dt rest ih =>
    intro st n st2 m h
    cases hfp : findPubdate s dt pds with
    | error e =>
      simp only [pubYearLoop, hfp] at h
      exact Except.noConfusion h
    | ok d =>
      simp only [pubYearLoop, hfp] at h
      split at h
      · split at h
        · exact ih (manage_check_error (yearMismatchMsg dt sysnum) st) (n + 1) st2 m h
        · exact ih st (n + 1) st2 m h
      · exact ih st n st2 m h

/-- Rule A never changes the record component of the check state. -/
theorem check_pub_year_fst (s : MergerSettings) :
    ∀ (st st1 : CheckState), check_pub_year_consistency s st = .ok st1 → st1.1 = st.1 := by
  intro st st1 h
  simp only [check_pub_year_consistency] at h
  split at h
  · cases h; rfl
  · split at h
    · cases h; rfl
    · split at h
      · cases h; rfl
      · split at h
        · exact Except.noConfusion h
        · split at h
          · exact Except.noConfusion h
          · split at h
            · exact Except.noConfusion h
            · rename_i stl nl heq
              split at h
              · cases h
                exact pubYearLoop_fst s _ _ _ st 0 stl nl heq
              · cases h
                exact pubYearLoop_fst s _ _ _ st 0 _ _ heq

/-- Rule B never changes the record component of the check state. -/
theorem first_author_fst (s : MergerSettings) :
    ∀ (st st1 : CheckState), first_author_bibcode_consistency s st = .ok st1 → st1.1 = st.1 := by
  intro st st1 h
  simp only [first_author_bibcode_consistency] at h
  split at h
  · cases h; rfl
  · split at h
    · cases h; rfl
    · split at h
      · cases h; rfl
      · split at h
        · cases h; rfl
        · split at h
          · exact Except.noConfusion h
          · split at h
            · exact Except.noConfusion h
            · split at h
              · exact Except.noConfusion h
              · split at h
                · exact Except.noConfusion h
                · split at h
                  · exact Except.noConfusion h
                  · split at h
                    · exact Except.noConfusion h
                    · split at h
                      · cases h; rfl
                      · cases h; rfl

/-- Claim C8: running the two consistency checks, in either order, leaves
the merged record unchanged: each check only appends to the sink, so the
record component of the state after either check — and after both, run
in either order — is the input record. -/
theorem c8_checks_never_mutate (s : MergerSettings) (st : CheckState) :
    (∀ st1, check_pub_year_consistency s st = .ok st1 → st1.1 = st.1)
    ∧ (∀ st1, first_author_bibcode_consistency s st = .ok st1 → st1.1 = st.1)
    ∧ (∀ st1 st2, check_pub_year_consistency s st = .ok st1 →
        first_author_bibcode_consistency s st1 = .ok st2 → st2.1 = st.1)
    ∧ (∀ st1 st2, first_author_bibcode_consistency s st = .ok st1 →
        check_pub_year_consistency s st1 = .ok st2 → st2.1 = st.1) := by
  refine ⟨fun st1 h => check_pub_year_fst s st st1 h,
    fun st1 h => first_author_fst s st st1 h, ?_, ?_⟩
  · intro st1 st2 h1 h2
    rw [first_author_fst s st1 st2 h2, check_pub_year_fst s st st1 h1]
  · intro st1 st2 h1 h2
    rw [check_pub_year_fst s st1 st2 h2, first_author_fst s st st1 h1]

/-- Claim C10: the rule-A date extraction scans the publication-date
field instances in record order and takes the first instance whose type
subfield equals the requested date type: any instances after it — in
particular later instances of the same type with disagreeing dates — are
ignored, the result being the first match's date value for every suffix
`post`. -/
theorem c10_first_match
    (s : MergerSettings) (dt : String) (f : FieldInst) (d : String)
    (hf : (field_get_subfield_values f s.pubDateTypeSubfield).head? = some dt)
    (hd : (field_get_subfield_values f s.pubDateSubfield).head? = some d) :
    ∀ (pre : List FieldInst),
      (∀ g ∈ pre, ∃ tv, (field_get_subfield_values g s.pubDateTypeSubfield).head? = some tv ∧
        tv ≠ dt) →
      ∀ (post : List FieldInst), findPubdate s dt (pre ++ f :: post) = .ok d := by
  intro pre
  induction pre with
  | nil =>
    intro _ post
    simp [findPubdate, hf, hd]
  | cons g pre ih =>
    intro hpre post
    obtain ⟨tv, htv, hne⟩ := hpre g (List.mem_cons_self g pre)
    simp only [List.cons_append, findPubdate, htv]
    rw [if_neg (by simpa using hne)]
    exact ih (fun g2 hg2 => hpre g2 (List.mem_cons_of_mem g hg2)) post

/-- Claim C5: merging the two author fields of the regression test
`test_02_merge_two_records_additional_subfield` — identity key the
short-name subfield `b`, priority A&A above ARXIV — produces a single
author field holding the winner's subfields verbatim (name, short name
and origin from the A&A record) with only the affiliation subfield `u`,
absent from the winner, filled in from the lower-priority ARXIV donor. -/
theorem c5_author_subfield_enrichment :
    resolve scenarioPriority ["b"] [rec1author, rec2author] =
      [[("a", "Di Milia, Giovanni"), ("b", "Di Milia, G"), ("7", "A&A"),
        ("u", "Center for astrophysics")]] := rfl

/-- Membership in the added bibcodes: ADS keys absent from Invenio. -/
theorem mem_records_added_iff (ads inv : List (String × String)) (b : String) :
    b ∈ records_added ads inv ↔ b ∈ mapKeys ads ∧ b ∉ mapKeys inv := by
  simp [records_added, List.mem_filter]

/-- Membership in the deleted bibcodes: Invenio keys absent from ADS. -/
theorem mem_records_deleted_iff (ads inv : List (String × String)) (b : String) :
    b ∈ records_deleted ads inv ↔ b ∈ mapKeys inv ∧ b ∉ mapKeys ads := by
  simp [records_deleted, List.mem_filter]

/-- Membership in the records to check: keys present on both sides. -/
theorem mem_records_to_check_iff (ads inv : List (String × String)) (b : String) :
    b ∈ records_to_check ads inv ↔ b ∈ mapKeys inv ∧ b ∈ mapKeys ads := by
  simp only [records_to_check, List.mem_filter, decide_eq_true_eq,
    mem_records_deleted_iff]
  tauto

/-- Membership in the modified bibcodes: keys present on both sides whose
two timestamps differ. -/
theorem mem_records_modified_iff (ads inv : List (String × String)) (b : String) :
    b ∈ records_modified ads inv ↔
      b ∈ mapKeys ads ∧ b ∈ mapKeys inv ∧ List.lookup b inv ≠ List.lookup b ads := by
  simp only [records_modified, List.mem_filter, decide_eq_true_eq,
    mem_records_to_check_iff]
  tauto

/-- Claim C6: for every pair of key-to-timestamp mappings,
`get_records_status` returns three pairwise-disjoint collections: the
added keys are exactly the ADS keys absent from Invenio, the deleted keys
are exactly the Invenio keys absent from ADS, and the modified keys are
exactly the keys present in both mappings whose two timestamp values
differ. -/
theorem c6_get_records_status (ads inv : List (String × String)) (b : String) :
    ((b ∈ (get_records_status ads inv).1 ↔ b ∈ mapKeys ads ∧ b ∉ mapKeys inv)
    ∧ (b ∈ (get_records_status ads inv).2.2 ↔ b ∈ mapKeys inv ∧ b ∉ mapKeys ads)
    ∧ (b ∈ (get_records_status ads inv).2.1 ↔
        b ∈ mapKeys ads ∧ b ∈ mapKeys inv ∧ List.lookup b inv ≠ List.lookup b ads))
    ∧ ¬(b ∈ (get_records_status ads inv).1 ∧ b ∈ (get_records_status ads inv).2.1)
    ∧ ¬(b ∈ (get_records_status ads inv).1 ∧ b ∈ (get_records_status ads inv).2.2)
    ∧ ¬(b ∈ (get_records_status ads inv).2.1 ∧ b ∈ (get_records_status ads inv).2.2) := by
  have hadd := mem_records_added_iff ads inv b
  have hdel := mem_records_deleted_iff ads inv b
  have hmod := mem_records_modified_iff ads inv b
  simp only [get_records_status]
  exact ⟨⟨hadd, hdel, hmod⟩, by tauto, by tauto, by tauto⟩

/-- Looking a key up after a dict assignment: the assigned key maps to
the new value, every other key is unaffected. -/
theorem lookup_dictInsert (k v b : String) :
    ∀ d, List.lookup b (dictInsert d k v) = if b = k then some v else List.lookup b d := by
  intro d
  induction d with
  | nil =>
    cases hb : b == k with
    | true => simp [dictInsert, List.lookup, hb, eq_of_beq hb]
    | false => simp [dictInsert, List.lookup, hb, ne_of_beq_false hb]
  | cons p ps ih =>
    obtain ⟨pk, pv⟩ := p
    cases hpk : pk == k with
    | true =>
      have hpk2 := eq_of_beq hpk
      cases hb : b == k with
      | true =>
        have hbpk : (b == pk) = true := by rw [hpk2]; exact hb
        simp [dictInsert, List.lookup, hpk, hb, hbpk, eq_of_beq hb]
      | false =>
        have hbpk : (b == pk) = false := by rw [hpk2]; exact hb
        simp [dictInsert, List.lookup, hpk, hb, hbpk, ne_of_beq_false hb]
    | false =>
      cases hb : b == k with
      | true =>
        have hbpk : (b == pk) = false := by
          rw [eq_of_beq hb]
          exact BEq.symm_false hpk
        simp [dictInsert, List.lookup, hpk, hb, hbpk, ih]
      | false =>
        cases hbpk : b == pk with
        | true => simp [dictInsert, List.lookup, hpk, hb, hbpk, ne_of_beq_false hb]
        | false => simp [dictInsert, List.lookup, hpk, hb, hbpk, ih, ne_of_beq_false hb]

/-- A lookup misses exactly when the key is not among the dict keys. -/
theorem lookup_eq_none_iff (b : String) :
    ∀ l : List (String × String), List.lookup b l = none ↔ b ∉ mapKeys l := by
  intro l
  induction l with
  | nil => simp [mapKeys]
  | cons p ps ih =>
    obtain ⟨pk, pv⟩ := p
    cases hb : b == pk with
    | true => simp [List.lookup, hb, mapKeys, eq_of_beq hb]
    | false => simp [List.lookup, hb, mapKeys, ih, ne_of_beq_false hb]

/-- Looking a key up after `d.update(t)` for a dict `t` (unique keys):
the entry of `t` when present, the entry of `d` otherwise. -/
theorem lookup_dictUpdate (b : String) :
    ∀ (t d : List (String × String)), (mapKeys t).Nodup →
      List.lookup b (dictUpdate d t) = Option.or (List.lookup b t) (List.lookup b d) := by
  intro t
  induction t with
  | nil =>
    intro d _
    simp [dictUpdate]
  | cons p ps ih =>
    intro d hnd
    obtain ⟨pk, pv⟩ := p
    have hnd2 : (mapKeys ps).Nodup := (List.nodup_cons.mp (by simpa [mapKeys] using hnd)).2
    have hpk : pk ∉ mapKeys ps := (List.nodup_cons.mp (by simpa [mapKeys] using hnd)).1
    rw [show dictUpdate d ((pk, pv) :: ps) = dictUpdate (dictInsert d pk pv) ps from rfl]
    rw [ih (dictInsert d pk pv) hnd2, lookup_dictInsert pk pv b d]
    cases hb : b == pk with
    | true =>
      have hb2 := eq_of_beq hb
      subst hb2
      have hmiss : List.lookup b ps = none := by
        rw [lookup_eq_none_iff b ps]
        exact hpk
      simp [List.lookup, hmiss, Option.or]
    | false =>
      simp [List.lookup, hb, ne_of_beq_false hb]

/-- Looking a key up after folding dict updates over a list of tier
dicts, each with unique keys: the entry of the latest tier containing
the key, the entry of the start dict otherwise. -/
theorem lookup_foldl_update (b : String) :
    ∀ (tiers : List (List (String × String))) (d : List (String × String)),
      (∀ t ∈ tiers, (mapKeys t).Nodup) →
      List.lookup b (tiers.foldl dictUpdate d) =
        Option.or (lookupTiers tiers b) (List.lookup b d) := by
  intro tiers
  induction tiers with
  | nil =>
    intro d _
    simp [lookupTiers]
  | cons t rest ih =>
    intro d hall
    rw [List.foldl_cons, ih (dictUpdate d t) (fun t2 h2 => hall t2 (List.mem_cons_of_mem t h2))]
    rw [lookup_dictUpdate b t d (hall t (List.mem_cons_self t rest))]
    have e : lookupTiers (t :: rest) b = Option.or (lookupTiers rest b) (List.lookup b t) := by
      cases hx : List.lookup b t <;>
        simp [lookupTiers, List.findSome?_append, hx]
    rw [e, Option.or_assoc]

/-- Looking a key up after a try/except dict delete: the deleted key is
gone, every other key is unaffected. -/
theorem lookup_dictDelete (b k : String) :
    ∀ d, List.lookup b (dictDelete d k) = if b = k then none else List.lookup b d := by
  intro d
  induction d with
  | nil => simp [dictDelete]
  | cons p ps ih =>
    obtain ⟨pk, pv⟩ := p
    have ih2 : List.lookup b (List.filter (fun p => !(p.1 == k)) ps) =
        if b = k then none else List.lookup b ps := by
      simpa [dictDelete, bne] using ih
    cases hpk : pk == k with
    | true =>
      have hpk2 := eq_of_beq hpk
      cases hb : b == k with
      | true =>
        simp [dictDelete, List.filter_cons, bne, hpk, ih2, eq_of_beq hb]
        exact fun a c _ hak h => hak h.symm
      | false =>
        have hbpk : (b == pk) = false := by
          rw [hpk2]
          exact hb
        simp [dictDelete, List.filter_cons, bne, hpk, ih2, ne_of_beq_false hb,
          List.lookup, hbpk]
    | false =>
      cases hb : b == pk with
      | true =>
        have hbk : ¬ b = k := fun h => (ne_of_beq_false hpk) ((eq_of_beq hb).symm.trans h)
        simp [dictDelete, List.filter_cons, bne, hpk, List.lookup, hb, hbk]
      | false =>
        simp [dictDelete, List.filter_cons, bne, hpk, List.lookup, hb, ih2]

/-- Looking a key up after folding deletes over a list of keys: keys of
the list are gone, every other key is unaffected. -/
theorem lookup_foldl_delete (b : String) :
    ∀ (pubs : List String) (d : List (String × String)),
      List.lookup b (pubs.foldl dictDelete d) =
        if b ∈ pubs then none else List.lookup b d := by
  intro pubs
  induction pubs with
  | nil =>
    intro d
    simp
  | cons p ps ih =>
    intro d
    rw [List.foldl_cons, ih (dictDelete d p), lookup_dictDelete b p d]
    by_cases hp : b = p <;> by_cases hps : b ∈ ps <;> simp [hp, hps]

/-- Claim C9: in the ADS-side timestamp map, a bibcode appearing in
several tier files keeps the timestamp of the file listed latest in
`TIMESTAMP_FILES_HIERARCHY` (the highest-importance tier, the astronomy
file being listed last), because each tier dict-update overwrites earlier
tiers; and every bibcode of the published-eprints list is removed from
the map, so it can appear neither in the to-add nor in the to-modify
output of `get_records_status`. -/
theorem c9_ads_timestamps_hierarchy
    (readFile : String → List (String × String)) (published : List String)
    (hN : ∀ fn ∈ TIMESTAMP_FILES_HIERARCHY, (mapKeys (readFile fn)).Nodup) :
    (∀ b, List.lookup b (_get_ads_timestamps readFile published) =
      if b ∈ published then none
      else lookupTiers (TIMESTAMP_FILES_HIERARCHY.map readFile) b)
    ∧ TIMESTAMP_FILES_HIERARCHY.getLast? = some "BIBCODES_AST"
    ∧ (∀ b ∈ published, ∀ inv,
        b ∉ (get_records_status (_get_ads_timestamps readFile published) inv).1
        ∧ b ∉ (get_records_status (_get_ads_timestamps readFile published) inv).2.1) := by
  have key : ∀ b, List.lookup b (_get_ads_timestamps readFile published) =
      if b ∈ published then none
      else lookupTiers (TIMESTAMP_FILES_HIERARCHY.map readFile) b := by
    intro b
    rw [_get_ads_timestamps, lookup_foldl_delete b published]
    have e : TIMESTAMP_FILES_HIERARCHY.foldl (fun acc fn => dictUpdate acc (readFile fn)) [] =
        (TIMESTAMP_FILES_HIERARCHY.map readFile).foldl dictUpdate [] := by
      rw [List.foldl_map]
    rw [e, lookup_foldl_update b (TIMESTAMP_FILES_HIERARCHY.map readFile) []]
    · simp
    · intro t ht
      obtain ⟨fn, hfn, rfl⟩ := List.mem_map.mp ht
      exact hN fn hfn
  refine ⟨key, rfl, ?_⟩
  intro b hb inv
  have hnone : List.lookup b (_get_ads_timestamps readFile published) = none := by
    rw [key b]
    simp [hb]
  have hkeys : b ∉ mapKeys (_get_ads_timestamps readFile published) :=
    (lookup_eq_none_iff b _).mp hnone
  constructor
  · intro hmem
    exact hkeys ((mem_records_added_iff _ inv b).mp hmem).1
  · intro hmem
    exact hkeys ((mem_records_modified_iff _ inv b).mp hmem).1

/-- A record with one system-number field and two publication-date
fields, used to instantiate rule-A statements. -/
def c1pds : List FieldInst :=
  [[("t", "print"), ("c", "2019-03-01")], [("t", "electronic"), ("c", "2020-06-01")]]

/-- The record holding `c1pds` under the publication-date tag. -/
def c1rec : MergedRecord :=
  [("970", [[("a", "2020ApJ...1A")]]), ("260", c1pds)]

theorem c1_pub_year_consistency_characterization_witness :
    check_pub_year_consistency exampleSettings (c1rec, []) =
      .ok (c1rec, ([] ++ yearChecksSpec exampleSettings c1pds "2020ApJ...1A"
          exampleSettings.pubDateTypeVals) ++
        (if usableDates exampleSettings c1pds exampleSettings.pubDateTypeVals = 0
          then [noDatesMsg] else [])) :=
  c1_pub_year_consistency_characterization exampleSettings c1rec []
    [("a", "2020ApJ...1A")] c1pds "2020ApJ...1A" rfl rfl rfl (by decide)

/-- A record with one system-number field and one first-author field,
used to instantiate rule-B statements. -/
def c2rec : MergedRecord :=
  [("970", [[("a", "2020ApJ...1B")]]), ("100", [[("a", "Carroll, B")]])]

theorem c2_first_author_bibcode_witness :
    first_author_bibcode_consistency exampleSettings (c2rec, []) =
      .ok (c2rec, [] ++ (if ("Carroll, B" : String).data.head? =
          ("2020ApJ...1B" : String).data.getLast? then []
        else [authorMismatchMsg "Carroll, B" "2020ApJ...1B"])) :=
  c2_first_author_bibcode exampleSettings c2rec [] [("a", "2020ApJ...1B")]
    [("a", "Carroll, B")] "2020ApJ...1B" "Carroll, B" rfl rfl rfl rfl
    (by decide) (by decide)

theorem c3_amended_witness :
    check_pub_year_consistency exampleSettings (twoSysNoDateRecord, []) =
      .ok (twoSysNoDateRecord, [] ++ ["No Publication Date field!"]) :=
  (c3_amended exampleSettings twoSysNoDateRecord []
    [[("a", "2020ApJ...1A")], [("a", "2020ApJ...1B")]] rfl (by decide)).2 rfl

/-- A well-formed record holding all three tags the checks read. -/
def c4rec : MergedRecord :=
  [("100", [[("a", "Carroll, B")]]), ("260", [[("t", "print"), ("c", "2020-01-01")]]),
    ("970", [[("a", "2020ApJ...1B")]])]

theorem c4_amended_witness :
    (∃ st1, check_pub_year_consistency exampleSettings (c4rec, []) = .ok st1)
    ∧ (∃ st2, first_author_bibcode_consistency exampleSettings (c4rec, []) = .ok st2) := by
  refine c4_amended exampleSettings c4rec [] ?_ ?_ ?_
  · intro flds h
    rw [show List.lookup exampleSettings.systemNumberTag c4rec =
      some [[("a", "2020ApJ...1B")]] from rfl] at h
    cases h
    refine ⟨by decide, ?_⟩
    intro f hf
    simp only [List.mem_singleton] at hf
    subst hf
    exact ⟨"2020ApJ...1B", rfl, by decide⟩
  · intro flds h
    rw [show List.lookup exampleSettings.pubDateTag c4rec =
      some [[("t", "print"), ("c", "2020-01-01")]] from rfl] at h
    cases h
    decide
  · intro flds h
    rw [show List.lookup exampleSettings.firstAuthorTag c4rec =
      some [[("a", "Carroll, B")]] from rfl] at h
    cases h
    refine ⟨by decide, ?_⟩
    intro f hf
    simp only [List.mem_singleton] at hf
    subst hf
    exact ⟨"Carroll, B", rfl, by decide⟩

theorem c6_get_records_status_witness :
    ((("B" : String) ∈ (get_records_status [("A", "1"), ("B", "2")] [("B", "3"), ("C", "2")]).1 ↔
      ("B" : String) ∈ mapKeys [("A", "1"), ("B", "2")] ∧
        ("B" : String) ∉ mapKeys [("B", "3"), ("C", "2")])
    ∧ (("B" : String) ∈ (get_records_status [("A", "1"), ("B", "2")] [("B", "3"), ("C", "2")]).2.2 ↔
      ("B" : String) ∈ mapKeys [("B", "3"), ("C", "2")] ∧
        ("B" : String) ∉ mapKeys [("A", "1"), ("B", "2")])
    ∧ (("B" : String) ∈ (get_records_status [("A", "1"), ("B", "2")] [("B", "3"), ("C", "2")]).2.1 ↔
      ("B" : String) ∈ mapKeys [("A", "1"), ("B", "2")] ∧
        ("B" : String) ∈ mapKeys [("B", "3"), ("C", "2")] ∧
        List.lookup "B" [("B", "3"), ("C", "2")] ≠ List.lookup "B" [("A", "1"), ("B", "2")]))
    ∧ ¬(("B" : String) ∈ (get_records_status [("A", "1"), ("B", "2")] [("B", "3"), ("C", "2")]).1 ∧
        ("B" : String) ∈ (get_records_status [("A", "1"), ("B", "2")] [("B", "3"), ("C", "2")]).2.1)
    ∧ ¬(("B" : String) ∈ (get_records_status [("A", "1"), ("B", "2")] [("B", "3"), ("C", "2")]).1 ∧
        ("B" : String) ∈ (get_records_status [("A", "1"), ("B", "2")] [("B", "3"), ("C", "2")]).2.2)
    ∧ ¬(("B" : String) ∈ (get_records_status [("A", "1"), ("B", "2")] [("B", "3"), ("C", "2")]).2.1 ∧
        ("B" : String) ∈ (get_records_status [("A", "1"), ("B", "2")] [("B", "3"), ("C", "2")]).2.2) :=
  c6_get_records_status [("A", "1"), ("B", "2")] [("B", "3"), ("C", "2")] "B"

/-- A record with one system-number field and a publication-date field
matching no configured date type. -/
def c7rec : MergedRecord :=
  [("970", [[("a", "2020ApJ...1A")]]), ("260", [[("t", "other"), ("c", "2019")]])]

theorem c7_no_usable_date_witness :
    check_pub_year_consistency exampleSettings (c7rec, []) = .ok (c7rec, [] ++ [noDatesMsg]) :=
  (c7_no_usable_date exampleSettings c7rec [] [("a", "2020ApJ...1A")]
    [[("t", "other"), ("c", "2019")]] "2020ApJ...1A" rfl rfl rfl (by decide)).1 (by decide)

theorem c8_checks_never_mutate_witness :
    ((twoSysNoDateRecord, ["No Publication Date field!"]) : CheckState).1 =
      ((twoSysNoDateRecord, []) : CheckState).1 :=
  (c8_checks_never_mutate exampleSettings (twoSysNoDateRecord, [])).1
    (twoSysNoDateRecord, ["No Publication Date field!"]) rfl

/-- Concrete tier files for the timestamp-hierarchy witness. -/
def c9readFile : String → List (String × String) :=
  fun fn =>
    if fn == "BIBCODES_AST" then [("2020X", "t-ast")]
    else if fn == "BIBCODES_GEN" then [("2020X", "t-gen")]
    else []

theorem c9_ads_timestamps_hierarchy_witness :
    List.lookup "2020X" (_get_ads_timestamps c9readFile ["2021Y"]) =
      if ("2020X" : String) ∈ ["2021Y"] then none
      else lookupTiers (TIMESTAMP_FILES_HIERARCHY.map c9readFile) "2020X" :=
  (c9_ads_timestamps_hierarchy c9readFile ["2021Y"] (by decide)).1 "2020X"

/-- Publication-date fields for the first-match witness: a
non-matching field, the first matching field, and a later matching field
with a disagreeing date. -/
def c10pre : List FieldInst := [[("t", "electronic"), ("c", "1999-01-01")]]

/-- The first field matching the requested date type. -/
def c10f : FieldInst := [("t", "print"), ("c", "2020-01-01")]

/-- A later field of the same date type carrying a different date. -/
def c10post : List FieldInst := [[("t", "print"), ("c", "1900-01-01")]]

theorem c10_first_match_witness :
    findPubdate exampleSettings "print" (c10pre ++ c10f :: c10post) = .ok "2020-01-01" :=
  c10_first_match exampleSettings "print" c10f "2020-01-01" rfl rfl c10pre
    (by
      intro g hg
      simp only [c10pre, List.mem_singleton] at hg
      subst hg
      exact ⟨"electronic", rfl, by decide⟩) c10post
